import Mathlib

/-!
Shallow embedding of `src/git_fetch.py` (a speed-monitoring wrapper around
`git fetch`) and proofs about its monitored retry loop.

Modelling conventions:
* Python `float` timestamps and throughput values are modelled as exact
  rationals (`ℚ`); Python `int` as `ℤ`/`ℕ`.
* The child process of one monitored attempt is modelled by its observable
  behaviour (`AttemptBehavior`): the wall-clock time at which each output
  line is delivered, and how the stream ends (end-of-stream with an exit
  code, or an exception raised while reading).
* Process-control side effects (`process.terminate()`, `process.wait()`)
  are recorded as an action trace (`PAction`), placed exactly where the
  source performs them.
* `re.search(r"([0-9.]+) ([KMG])iB/s", line)` is embedded as a
  leftmost-match scanner.  Since the character class `[0-9.]` does not
  contain the space character, the greedy `+` never needs to backtrack
  (only the maximal run of class characters can be followed by a space),
  so maximal-munch at each successive start position is exactly Python's
  leftmost-match semantics for this pattern.
-/

namespace GitFetch

/-- Configuration loaded from the environment, src/git_fetch.py lines 11-21.
`SPEED_WINDOW_SIZE` is used as a `deque` capacity and is modelled as a `ℕ`;
`MAX_RETRIES` is `int(...)` and may be negative, hence `ℤ`. -/
structure Config where
  SPEED_THRESHOLD : ℤ
  SPEED_WINDOW_SIZE : ℕ
  SPEED_CHECK_INTERVAL : ℚ
  MAX_RETRIES : ℤ
  FETCH_TIMEOUT_BEFORE_SPEED_CHECK : ℚ
deriving DecidableEq

/-- The default configuration values of lines 11-21. -/
def defaultConfig : Config :=
  { SPEED_THRESHOLD := 1000
    SPEED_WINDOW_SIZE := 5
    SPEED_CHECK_INTERVAL := 1
    MAX_RETRIES := 5
    FETCH_TIMEOUT_BEFORE_SPEED_CHECK := 60 }

/-- Characters matched by the regex class `[0-9.]`. -/
def isNumChar (c : Char) : Bool := c.isDigit || c == '.'

/-- Characters matched by the regex class `[KMG]`. -/
def isUnitChar (c : Char) : Bool := c == 'K' || c == 'M' || c == 'G'

/-- Match the pattern `([0-9.]+) ([KMG])iB/s` anchored at the start of `cs`:
take the maximal run of `[0-9.]` characters (nonempty), then require a
space, a unit letter, and the literal `iB/s`.  Returns the numeric group
and the unit group. -/
def matchSpeedAt (cs : List Char) : Option (List Char × Char) :=
  let num := cs.takeWhile isNumChar
  let rest := cs.dropWhile isNumChar
  if num.isEmpty then none
  else
    match rest with
    | ' ' :: u :: 'i' :: 'B' :: '/' :: 's' :: _ =>
        if isUnitChar u then some (num, u) else none
    | _ => none

/-- Leftmost search for the pattern, embedding
`re.search(r"([0-9.]+) ([KMG])iB/s", line)` at line 79. -/
def searchSpeed : List Char → Option (List Char × Char)
  | [] => none
  | c :: cs =>
    match matchSpeedAt (c :: cs) with
    | some r => some r
    | none => searchSpeed cs

/-- Decimal value of a digit string. -/
def natOfDigits (cs : List Char) : ℕ :=
  cs.foldl (fun n c => 10 * n + (c.toNat - 48)) 0

/-- Python `float()` applied to a string drawn from the regex group
`[0-9.]+` (so its characters are digits and dots): it succeeds iff the
string has at least one digit and at most one dot, and then denotes the
usual decimal value; otherwise `float()` raises `ValueError` (modelled as
`none`). -/
def pyFloatOfChars (cs : List Char) : Option ℚ :=
  if cs.any (fun c => c.isDigit) ∧ cs.count '.' ≤ 1 then
    some ((natOfDigits (cs.takeWhile (fun c => c != '.')) : ℚ) +
      (natOfDigits ((cs.dropWhile (fun c => c != '.')).drop 1) : ℚ) /
        (10 : ℚ) ^ ((cs.dropWhile (fun c => c != '.')).drop 1).length)
  else none

/-- Unit normalisation of lines 84-87: `M` multiplies by 1024, `G` by
1024·1024, anything else (only `K` can occur) by 1. -/
def unitFactor (u : Char) : ℚ :=
  if u == 'M' then 1024 else if u == 'G' then 1024 * 1024 else 1

/-- Python `int()` on a rational: truncation toward zero (line 88). -/
def pyTrunc (q : ℚ) : ℤ := if 0 ≤ q then ⌊q⌋ else -⌊-q⌋

/-- `deque(maxlen := m).append x`: keep the most recent `m` elements,
evicting the oldest. -/
def dequeAppend (m : ℕ) (w : List ℤ) (x : ℤ) : List ℤ :=
  let w' := w ++ [x]
  w'.drop (w'.length - m)

/-- Per-attempt mutable state of the streaming loop (lines 43, 59-60). -/
structure LoopState where
  speed_measurements : List ℤ
  speed_reported : Bool
  last_speed_check_time : ℚ
deriving DecidableEq

/-- Fresh per-attempt state: empty window, no speed reported,
`last_speed_check_time = start_time` (lines 43, 59-60). -/
def initState (start_time : ℚ) : LoopState :=
  { speed_measurements := []
    speed_reported := false
    last_speed_check_time := start_time }

/-- Process-control side effects on the child process. -/
inductive PAction
  | terminate
  | wait
deriving DecidableEq

/-- How one monitored attempt concludes. -/
inductive AttemptEnd
  /-- Grace period elapsed with no speed ever reported (lines 69-76). -/
  | stalled
  /-- Windowed average below threshold (lines 90-100), carrying the mean. -/
  | slow (avg : ℚ)
  /-- End-of-stream, child waited on, with this return code (lines 104-107). -/
  | exited (code : ℤ)
  /-- An exception was raised and caught (lines 109-112). -/
  | excRaised
deriving DecidableEq

/-- Result of processing one line inside the streaming loop: either
continue with an updated state, or break out with an attempt end and the
process-control actions performed on the way out. -/
inductive StepResult
  | next (st : LoopState)
  | broke (e : AttemptEnd) (acts : List PAction)
deriving DecidableEq

/-- The speed-extraction stage, lines 78-88: search for the pattern; on a
match, `float()` the numeric group (`none` models the `ValueError` it
raises on inputs like `"1.2.3"`), scale by the unit, truncate, append to
the window and set `speed_reported`. -/
def extractStep (m : ℕ) (st : LoopState) (line : String) : Option LoopState :=
  match searchSpeed line.data with
  | none => some st
  | some (num, u) =>
    match pyFloatOfChars num with
    | none => none
    | some q =>
      some { st with
              speed_reported := true
              speed_measurements :=
                dequeAppend m st.speed_measurements (pyTrunc (q * unitFactor u)) }

/-- The body of `for line in process.stdout` (lines 63-102), for a line
delivered at wall-clock time `t`.  The order of stages is the source's:
(1) the no-speed grace-period check, lines 69-76, which terminates and
waits on the child and breaks; (2) speed extraction, lines 78-88;
(3) the windowed-average check, lines 90-102, which when the interval has
elapsed and the window is full compares the mean against the threshold
(a zero-capacity window makes `sum/len` raise `ZeroDivisionError`,
caught at line 111), and otherwise refreshes `last_speed_check_time`. -/
def stepLine (cfg : Config) (start_time : ℚ) (st : LoopState) (t : ℚ)
    (line : String) : StepResult :=
  if t - start_time ≥ cfg.FETCH_TIMEOUT_BEFORE_SPEED_CHECK ∧ st.speed_reported = false then
    .broke .stalled [.terminate, .wait]
  else
    match extractStep cfg.SPEED_WINDOW_SIZE st line with
    | none => .broke .excRaised []
    | some st1 =>
      if t - st1.last_speed_check_time ≥ cfg.SPEED_CHECK_INTERVAL then
        if st1.speed_measurements.length = cfg.SPEED_WINDOW_SIZE then
          if cfg.SPEED_WINDOW_SIZE = 0 then .broke .excRaised []
          else
            if (st1.speed_measurements.sum : ℚ) / (st1.speed_measurements.length : ℚ) <
                cfg.SPEED_THRESHOLD then
              .broke
                (.slow ((st1.speed_measurements.sum : ℚ) / (st1.speed_measurements.length : ℚ)))
                [.terminate, .wait]
            else .next { st1 with last_speed_check_time := t }
        else .next { st1 with last_speed_check_time := t }
      else .next st1

/-- How the output stream of one attempt ends, after the listed lines. -/
inductive StreamTail
  /-- The stream reaches end-of-file; the child is waited on and reports
  this return code (lines 104-107). -/
  | eof (returncode : ℤ)
  /-- An exception is raised while reading/processing the stream
  (caught at lines 109-112). -/
  | raiseExc
deriving DecidableEq

/-- Observable behaviour of one spawned child: attempt start time, the
timestamped output lines, and how the stream ends. -/
structure AttemptBehavior where
  start_time : ℚ
  events : List (ℚ × String)
  tail : StreamTail
deriving DecidableEq

/-- The streaming loop from a given state: process each line with
`stepLine` until a break, or fall off the end of the stream.  The natural
end (`for ... else`, lines 104-107) waits on the child; the exception
handlers (lines 109-112) perform no process-control action. -/
def runLoopFrom (cfg : Config) (start_time : ℚ) (st : LoopState) :
    List (ℚ × String) → StreamTail → AttemptEnd × List PAction
  | [], .eof code => (.exited code, [.wait])
  | [], .raiseExc => (.excRaised, [])
  | (t, line) :: evs, tail =>
    match stepLine cfg start_time st t line with
    | .next st' => runLoopFrom cfg start_time st' evs tail
    | .broke e acts => (e, acts)

/-- One monitored attempt (lines 43-112): fresh state, then the streaming
loop.  Returns how the attempt ended together with the process-control
actions performed on the child on the way out. -/
def runAttempt (cfg : Config) (b : AttemptBehavior) : AttemptEnd × List PAction :=
  runLoopFrom cfg b.start_time (initState b.start_time) b.events b.tail

/-- Behaviour of one `subprocess.Popen` call (line 50): either `Popen`
itself raises (e.g. the executable cannot be spawned) — note this call
sits OUTSIDE the `try` block of lines 62-112 — or a child is spawned with
the given observable behaviour. -/
inductive SpawnBehavior
  | spawnFail
  | spawned (b : AttemptBehavior)

/-- Environment a whole `run_git_command` call runs against: the behaviour
of the `k`-th monitored `Popen` call, and the behaviour of the final
`subprocess.call` (line 120): `some code`, or `none` when that call itself
raises. -/
structure RunEnv where
  attempts : ℕ → SpawnBehavior
  fallbackCall : Option ℤ

/-- Observable outcome of `run_git_command`: the returned exit code, or
`Except.error ()` when an exception propagates out of the function
uncaught; plus instrumentation: how many monitored children were actually
spawned, whether the unmonitored fallback execution ran, and the
end/action record of each monitored attempt in order. -/
structure RunResult where
  result : Except Unit ℤ
  monitoredSpawns : ℕ
  fallbackRun : Bool
  attemptRecords : List (AttemptEnd × List PAction)

/-- The fallback `return subprocess.call(git_command)` of line 120. -/
def runFallback (fb : Option ℤ) : RunResult :=
  { result := match fb with
      | some c => .ok c
      | none => .error ()
    monitoredSpawns := 0
    fallbackRun := true
    attemptRecords := [] }

/-- The `while retries < MAX_RETRIES` loop of lines 42-116, with `fuel`
the number of loop iterations still allowed and `k` the index of the next
`Popen` call.  Each iteration spawns a child (a raising `Popen` escapes
the function), runs one monitored attempt, returns 0 at once when the
attempt ends `exited 0` (lines 104-107), and otherwise increments
`retries` and continues; when the fuel is exhausted the fallback of
lines 118-120 runs. -/
def runRetryLoop (cfg : Config) (env : RunEnv) : ℕ → ℕ → RunResult
  | 0, _ => runFallback env.fallbackCall
  | fuel + 1, k =>
    match env.attempts k with
    | .spawnFail =>
      { result := .error ()
        monitoredSpawns := 0
        fallbackRun := false
        attemptRecords := [] }
    | .spawned b =>
      let a := runAttempt cfg b
      if a.1 = .exited 0 then
        { result := .ok 0
          monitoredSpawns := 1
          fallbackRun := false
          attemptRecords := [a] }
      else
        let r := runRetryLoop cfg env fuel (k + 1)
        { r with
            monitoredSpawns := r.monitoredSpawns + 1
            attemptRecords := a :: r.attemptRecords }

/-- `run_git_command` (lines 24-120): the retry loop starts at
`retries = 0` and runs while `retries < MAX_RETRIES`, i.e. for
`MAX_RETRIES.toNat` iterations unless an attempt succeeds first. -/
def run_git_command (cfg : Config) (env : RunEnv) : RunResult :=
  runRetryLoop cfg env cfg.MAX_RETRIES.toNat 0

/-- The fetch-dispatch logic of `main` (lines 133-137): when the literal
token `"fetch"` occurs in the argument list, append `"--progress"` unless
it is already present; otherwise forward the arguments untouched. -/
def dispatchArgs (git_args : List String) : List String :=
  if "fetch" ∈ git_args then
    if "--progress" ∈ git_args then git_args else git_args ++ ["--progress"]
  else git_args

/-- The progress line used as the worked example in the source comment at
line 78 and in the spec. -/
def sampleLine : String := "Receiving objects: 62% (193/310), 14.37 MiB | 28.73 MiB/s"

/-- The process-control actions the streaming loop performs for each way an
attempt can end: terminate-then-wait for STALLED (lines 74-75) and SLOW
(lines 98-99), a bare wait for a natural end-of-stream (line 105), and
nothing on the exception paths (lines 109-112). -/
def actsFor : AttemptEnd → List PAction
  | .stalled => [.terminate, .wait]
  | .slow _ => [.terminate, .wait]
  | .exited _ => [.wait]
  | .excRaised => []

/-- A `Popen` call that spawns a child whose attempt ends in a recoverable
failure: STALLED, SLOW or ERRORED — anything but a zero exit. -/
def recoverableSpawn (cfg : Config) (s : SpawnBehavior) : Prop :=
  ∃ b, s = SpawnBehavior.spawned b ∧ (runAttempt cfg b).1 ≠ AttemptEnd.exited 0

/-- Speed extraction leaves the state unchanged when the line has no match
(lines 79-80 fall through). -/
theorem extractStep_of_none {line : String} (m : ℕ) (st : LoopState)
    (hm : searchSpeed line.data = none) : extractStep m st line = some st := by
  simp [extractStep, hm]

/-- Speed extraction never resets `speed_reported`. -/
theorem extractStep_reported {m : ℕ} {st st' : LoopState} {line : String}
    (h : extractStep m st line = some st') (hr : st.speed_reported = true) :
    st'.speed_reported = true := by
  unfold extractStep at h
  split at h
  · cases h; exact hr
  · split at h
    · cases h
    · cases h; rfl

/-- Inversion for the break paths of the loop body: the actions performed
on the way out are exactly those of `actsFor`; a break never carries an
`exited` end; and a STALLED break requires the grace period to have
elapsed with `speed_reported` still false. -/
theorem stepLine_broke_inv {cfg : Config} {start t : ℚ} {st : LoopState} {line : String}
    {e : AttemptEnd} {acts : List PAction}
    (h : stepLine cfg start st t line = .broke e acts) :
    acts = actsFor e ∧ (∀ c, e ≠ .exited c) ∧
      (e = .stalled →
        t - start ≥ cfg.FETCH_TIMEOUT_BEFORE_SPEED_CHECK ∧ st.speed_reported = false) := by
  unfold stepLine at h
  split at h
  next hc =>
    cases h
    exact ⟨rfl, by simp, fun _ => hc⟩
  next hc =>
    split at h
    · cases h
      exact ⟨rfl, by simp, by simp⟩
    · split at h
      · split at h
        · split at h
          · cases h
            exact ⟨rfl, by simp, by simp⟩
          · split at h
            · cases h
              exact ⟨rfl, by simp, by simp⟩
            · cases h
        · cases h
      · cases h

/-- Inversion for the continue path of the loop body: the new state is the
post-extraction state, possibly with a refreshed `last_speed_check_time`. -/
theorem stepLine_next_inv {cfg : Config} {start t : ℚ} {st st' : LoopState} {line : String}
    (h : stepLine cfg start st t line = .next st') :
    ∃ st1, extractStep cfg.SPEED_WINDOW_SIZE st line = some st1 ∧
      (st' = st1 ∨ st' = { st1 with last_speed_check_time := t }) := by
  unfold stepLine at h
  split at h
  · cases h
  · split at h
    · cases h
    next st1 hex =>
      refine ⟨st1, hex, ?_⟩
      split at h
      · split at h
        · split at h
          · cases h
          · split at h
            · cases h
            · cases h; exact Or.inr rfl
        · cases h; exact Or.inr rfl
      · cases h; exact Or.inl rfl

/-- Throughout the streaming loop, the process-control actions performed on
the way out are exactly those dictated by the attempt's end. -/
theorem runLoopFrom_acts (cfg : Config) (start : ℚ) :
    ∀ (evs : List (ℚ × String)) (tail : StreamTail) (st : LoopState),
      (runLoopFrom cfg start st evs tail).2 = actsFor (runLoopFrom cfg start st evs tail).1
  | [], .eof _, _ => rfl
  | [], .raiseExc, _ => rfl
  | (t, line) :: evs, tail, st => by
    simp only [runLoopFrom]
    cases hs : stepLine cfg start st t line with
    | next st' => exact runLoopFrom_acts cfg start evs tail st'
    | broke e acts => exact (stepLine_broke_inv hs).1

/-- From any state that has already seen a speed sample, the rest of the
streaming loop can never end STALLED. -/
theorem runLoopFrom_reported_ne_stalled (cfg : Config) (start : ℚ) :
    ∀ (evs : List (ℚ × String)) (tail : StreamTail) (st : LoopState),
      st.speed_reported = true →
      (runLoopFrom cfg start st evs tail).1 ≠ AttemptEnd.stalled
  | [], .eof _, _, _ => by simp [runLoopFrom]
  | [], .raiseExc, _, _ => by simp [runLoopFrom]
  | (t, line) :: evs, tail, st, hr => by
    simp only [runLoopFrom]
    cases hs : stepLine cfg start st t line with
    | next st' =>
      have hr' : st'.speed_reported = true := by
        obtain ⟨st1, hex, hor⟩ := stepLine_next_inv hs
        have h1 := extractStep_reported hex hr
        rcases hor with rfl | rfl
        · exact h1
        · exact h1
      exact runLoopFrom_reported_ne_stalled cfg start evs tail st' hr'
    | broke e acts =>
      intro he
      have h3 := (stepLine_broke_inv hs).2.2 he
      rw [hr] at h3
      exact Bool.noConfusion h3.2

/-- Exhaustion: when every attempt the loop can start ends recoverably, the
loop consumes all its fuel and finishes with the fallback. -/
theorem runRetryLoop_exhaust (cfg : Config) (env : RunEnv) :
    ∀ (fuel k : ℕ), (∀ j, j < fuel → recoverableSpawn cfg (env.attempts (k + j))) →
      (runRetryLoop cfg env fuel k).result = (runFallback env.fallbackCall).result ∧
      (runRetryLoop cfg env fuel k).monitoredSpawns = fuel ∧
      (runRetryLoop cfg env fuel k).fallbackRun = true
  | 0, _, _ => ⟨rfl, rfl, rfl⟩
  | fuel + 1, k, h => by
    obtain ⟨b, hb, hne⟩ := h 0 (Nat.succ_pos fuel)
    rw [Nat.add_zero] at hb
    have ih := runRetryLoop_exhaust cfg env fuel (k + 1) (fun j hj => by
      have h2 := h (j + 1) (Nat.succ_lt_succ hj)
      rwa [show k + (j + 1) = k + 1 + j by omega] at h2)
    simp only [runRetryLoop, hb, if_neg hne]
    exact ⟨ih.1, by rw [ih.2.1], ih.2.2⟩

/-- When no `Popen` in the loop's budget raises and `subprocess.call` does
not raise, the loop produces an exit code. -/
theorem runRetryLoop_no_raise (cfg : Config) (env : RunEnv) :
    ∀ (fuel k : ℕ), (∀ j, j < fuel → env.attempts (k + j) ≠ SpawnBehavior.spawnFail) →
      env.fallbackCall.isSome = true →
      ∃ z, (runRetryLoop cfg env fuel k).result = Except.ok z
  | 0, _, _, hfb => by
    obtain ⟨c, hc⟩ := Option.isSome_iff_exists.mp hfb
    exact ⟨c, by simp [runRetryLoop, runFallback, hc]⟩
  | fuel + 1, k, h, hfb => by
    cases hb : env.attempts k with
    | spawnFail =>
      refine absurd hb ?_
      have h2 := h 0 (Nat.succ_pos fuel)
      rwa [Nat.add_zero] at h2
    | spawned b =>
      by_cases hz : (runAttempt cfg b).1 = AttemptEnd.exited 0
      · exact ⟨0, by simp [runRetryLoop, hb, hz]⟩
      · obtain ⟨z, hzr⟩ := runRetryLoop_no_raise cfg env fuel (k + 1) (fun j hj => by
          have h2 := h (j + 1) (Nat.succ_lt_succ hj)
          rwa [show k + (j + 1) = k + 1 + j by omega] at h2) hfb
        exact ⟨z, by simp only [runRetryLoop, hb, if_neg hz]; exact hzr⟩

/-- Short-circuit: after `j` recoverable attempts, an attempt that exits 0
makes the loop return 0 at once with `j + 1` children spawned and no
fallback. -/
theorem runRetryLoop_success (cfg : Config) (env : RunEnv) :
    ∀ (j fuel k : ℕ) (b : AttemptBehavior), j < fuel →
      (∀ i, i < j → recoverableSpawn cfg (env.attempts (k + i))) →
      env.attempts (k + j) = SpawnBehavior.spawned b →
      (runAttempt cfg b).1 = AttemptEnd.exited 0 →
      (runRetryLoop cfg env fuel k).result = Except.ok 0 ∧
      (runRetryLoop cfg env fuel k).monitoredSpawns = j + 1 ∧
      (runRetryLoop cfg env fuel k).fallbackRun = false
  | 0, fuel, k, b, hlt, _, hb, hz => by
    rw [Nat.add_zero] at hb
    cases fuel with
    | zero => exact absurd hlt (Nat.lt_irrefl 0)
    | succ f => refine ⟨?_, ?_, ?_⟩ <;> simp [runRetryLoop, hb, hz]
  | j + 1, fuel, k, b, hlt, hrec, hb, hz => by
    cases fuel with
    | zero => exact absurd hlt (Nat.not_lt_zero (j + 1))
    | succ f =>
      obtain ⟨b0, hb0, hne0⟩ := hrec 0 (Nat.succ_pos j)
      rw [Nat.add_zero] at hb0
      have ih := runRetryLoop_success cfg env j f (k + 1) b
        (Nat.lt_of_succ_lt_succ hlt)
        (fun i hi => by
          have h2 := hrec (i + 1) (Nat.succ_lt_succ hi)
          rwa [show k + (i + 1) = k + 1 + i by omega] at h2)
        (by rwa [show k + 1 + j = k + (j + 1) by omega])
        hz
      simp only [runRetryLoop, hb0, if_neg hne0]
      exact ⟨ih.1, by rw [ih.2.1], ih.2.2⟩

/-- The leftmost pattern match in the sample line is the second
numeric/unit pair, `("28.73", 'M')` — the pair `14.37 MiB` is not followed
by `/s` and does not match. -/
theorem sampleLine_search : searchSpeed sampleLine.data = some ("28.73".data, 'M') := by
  decide

/-- Evaluating `float("28.73")` in the model: the exact rational 2873/100. -/
theorem sampleLine_float : pyFloatOfChars ("28.73".data) = some ((2873 : ℚ) / 100) := by
  rw [pyFloatOfChars, if_pos (by decide)]
  rw [show List.takeWhile (fun c => c != '.') ("28.73".data) = "28".data from by decide,
    show (List.dropWhile (fun c => c != '.') ("28.73".data)).drop 1 = "73".data from by decide,
    show natOfDigits "28".data = 28 from by decide,
    show natOfDigits "73".data = 73 from by decide,
    show ("73".data).length = 2 from by decide]
  norm_num

/-- Processing the sample line from a fresh attempt state pushes the single
sample `⌊28.73 × 1024⌋ = 29419` and sets `speed_reported`. -/
theorem sampleLine_extract :
    extractStep 5 (initState 0) sampleLine =
      some { speed_measurements := [29419], speed_reported := true,
             last_speed_check_time := 0 } := by
  rw [extractStep]
  rw [sampleLine_search]
  dsimp only
  rw [sampleLine_float]
  dsimp only
  have h : pyTrunc ((2873 : ℚ) / 100 * unitFactor 'M') = 29419 := by
    rw [show unitFactor 'M' = 1024 from rfl]
    norm_num [pyTrunc]
  rw [h]
  rfl

/-- C1 (counterexample): `run_git_command` does NOT absorb a spawn
failure: `subprocess.Popen` at line 50 sits outside the `try` block of
lines 62-112, so when the very first `Popen` raises, the exception
propagates out of the function instead of an exit code being returned. -/
theorem C1_spawn_failure_raises :
    (run_git_command defaultConfig
      { attempts := fun _ => SpawnBehavior.spawnFail, fallbackCall := some 0 }).result =
      Except.error () := rfl

/-- C1 (amended): for every behaviour in which no `Popen` of the retry
loop raises and the final `subprocess.call` returns, `run_git_command`
returns an integer exit code — all faults arising while streaming or
managing an already-spawned child are absorbed into the retry/fallback
logic; only a failure of the spawn call itself escapes. -/
theorem C1_no_spawn_failure_returns_code (cfg : Config) (env : RunEnv)
    (h1 : ∀ j, j < cfg.MAX_RETRIES.toNat → env.attempts j ≠ SpawnBehavior.spawnFail)
    (h2 : env.fallbackCall.isSome = true) :
    ∃ z, (run_git_command cfg env).result = Except.ok z :=
  runRetryLoop_no_raise cfg env cfg.MAX_RETRIES.toNat 0
    (fun j hj => by rw [Nat.zero_add]; exact h1 j hj) h2

/-- C1 (witness): a run of five errored attempts followed by the fallback
returns an exit code. -/
theorem C1_witness :
    ∃ z, (run_git_command defaultConfig
      { attempts := fun _ => SpawnBehavior.spawned ⟨0, [], StreamTail.eof 1⟩,
        fallbackCall := some 7 }).result = Except.ok z :=
  C1_no_spawn_failure_returns_code defaultConfig
    { attempts := fun _ => SpawnBehavior.spawned ⟨0, [], StreamTail.eof 1⟩,
      fallbackCall := some 7 }
    (fun _ _ h => SpawnBehavior.noConfusion h) rfl

/-- C2 (counterexample): on the exception-handling path the child is
neither terminated nor waited on before control returns to the retry
loop: the handlers at lines 109-112 only print, so an attempt that ends in
an exception performs no process-control action at all. -/
theorem C2_exception_leaves_child_running :
    runAttempt defaultConfig ⟨0, [(0, "hello")], StreamTail.raiseExc⟩ =
      (AttemptEnd.excRaised, []) ∧
    PAction.wait ∉ (runAttempt defaultConfig ⟨0, [(0, "hello")], StreamTail.raiseExc⟩).2 := by
  have h : runAttempt defaultConfig ⟨0, [(0, "hello")], StreamTail.raiseExc⟩ =
      (AttemptEnd.excRaised, []) := by
    simp [runAttempt, runLoopFrom, stepLine, initState, defaultConfig, extractStep]
    decide
  exact ⟨h, by rw [h]; simp⟩

/-- C2 (amended): the process-control actions an attempt performs are
exactly determined by how it ends — terminate-then-wait on the STALLED and
SLOW paths, a bare blocking wait on the natural end-of-stream path, and
NOTHING on the exception paths, where the child is left running. -/
theorem C2_actions_match_end (cfg : Config) (b : AttemptBehavior) :
    (runAttempt cfg b).2 = actsFor (runAttempt cfg b).1 :=
  runLoopFrom_acts cfg b.start_time b.events b.tail (initState b.start_time)

/-- C3 (counterexample): for the sample line the pushed sample is
`int(28.73 * 1024) = int(29419.52) = 29419`, not the claimed
`28.73 × 1024 = 29420` — `int()` truncates rather than rounds. -/
theorem C3_sample_is_29419_not_29420 :
    extractStep 5 (initState 0) sampleLine =
      some { speed_measurements := [29419], speed_reported := true,
             last_speed_check_time := 0 } ∧ (29419 : ℤ) ≠ 29420 :=
  ⟨sampleLine_extract, by decide⟩

/-- C3 (amended): on the sample line the extraction selects the second
numeric/unit pair `(28.73, M)` as the leftmost occurrence of
`<number> <K|M|G>iB/s`, and the normalised, truncated sample pushed into
the window is `⌊28.73 × 1024⌋ = 29419` KiB/s. -/
theorem C3_second_pair_truncated_sample :
    searchSpeed sampleLine.data = some ("28.73".data, 'M') ∧
    extractStep 5 (initState 0) sampleLine =
      some { speed_measurements := [29419], speed_reported := true,
             last_speed_check_time := 0 } ∧
    pyTrunc ((2873 : ℚ) / 100 * 1024) = 29419 :=
  ⟨sampleLine_search, sampleLine_extract, by norm_num [pyTrunc]⟩

/-- C4 (counterexample): a line that contains a valid speed pattern but is
read once the grace period has elapsed with no earlier sample DOES
terminate the child and end the attempt STALLED: the stall check of
lines 69-76 runs before the extraction of lines 78-88 ever sees the line. -/
theorem C4_speed_line_after_grace_stalls :
    searchSpeed sampleLine.data = some ("28.73".data, 'M') ∧
    runAttempt defaultConfig ⟨0, [(60, sampleLine)], StreamTail.eof 0⟩ =
      (AttemptEnd.stalled, [PAction.terminate, PAction.wait]) := by
  refine ⟨sampleLine_search, ?_⟩
  simp [runAttempt, runLoopFrom, stepLine, initState, defaultConfig]

/-- C4 (amended): within the streaming loop the stall check precedes the
throughput extraction: processing a line at time `t` ends the attempt
STALLED exactly when the grace period has elapsed and no speed has ever
been reported — regardless of the line's content.  (A speed-bearing line
read before the grace boundary still sets the flag and prevents any later
stall.) -/
theorem C4_stall_check_precedes_extraction (cfg : Config) (start t : ℚ)
    (st : LoopState) (line : String) :
    stepLine cfg start st t line = .broke .stalled [.terminate, .wait] ↔
      (t - start ≥ cfg.FETCH_TIMEOUT_BEFORE_SPEED_CHECK ∧ st.speed_reported = false) := by
  constructor
  · intro h
    exact (stepLine_broke_inv h).2.2 rfl
  · intro h
    unfold stepLine
    rw [if_pos h]

/-- C5: when all `MAX_RETRIES` monitored attempts end recoverably
(STALLED, SLOW or ERRORED), `run_git_command` spawns exactly
`MAX_RETRIES` monitored children, then runs the unmonitored fallback
exactly once and returns its exit code verbatim. -/
theorem C5_retry_exhaustion_fallback (cfg : Config) (env : RunEnv) (c : ℤ)
    (h1 : ∀ j, j < cfg.MAX_RETRIES.toNat → recoverableSpawn cfg (env.attempts j))
    (h2 : env.fallbackCall = some c) :
    (run_git_command cfg env).result = Except.ok c ∧
    (run_git_command cfg env).monitoredSpawns = cfg.MAX_RETRIES.toNat ∧
    (run_git_command cfg env).fallbackRun = true := by
  have h := runRetryLoop_exhaust cfg env cfg.MAX_RETRIES.toNat 0
    (fun j hj => by rw [Nat.zero_add]; exact h1 j hj)
  refine ⟨?_, h.2.1, h.2.2⟩
  have hres := h.1
  rw [h2] at hres
  exact hres

/-- C5 (witness): with five attempts that each exit 1 and a fallback that
exits 7, the run spawns 5 monitored children, runs the fallback, and
returns 7. -/
theorem C5_witness :
    (run_git_command defaultConfig
      { attempts := fun _ => SpawnBehavior.spawned ⟨0, [], StreamTail.eof 1⟩,
        fallbackCall := some 7 }).result = Except.ok 7 ∧
    (run_git_command defaultConfig
      { attempts := fun _ => SpawnBehavior.spawned ⟨0, [], StreamTail.eof 1⟩,
        fallbackCall := some 7 }).monitoredSpawns = defaultConfig.MAX_RETRIES.toNat ∧
    (run_git_command defaultConfig
      { attempts := fun _ => SpawnBehavior.spawned ⟨0, [], StreamTail.eof 1⟩,
        fallbackCall := some 7 }).fallbackRun = true :=
  C5_retry_exhaustion_fallback defaultConfig
    { attempts := fun _ => SpawnBehavior.spawned ⟨0, [], StreamTail.eof 1⟩,
      fallbackCall := some 7 } 7
    (fun _ _ => ⟨⟨0, [], StreamTail.eof 1⟩, rfl, by decide⟩) rfl

/-- C6: processing a speed-free line from a streaming state (speed already
reported, nonzero window capacity) ends the attempt SLOW — terminating and
waiting on the child — if and only if the check interval has elapsed since
the last check AND the window is at full capacity AND its arithmetic mean
is strictly below the threshold; in every other case (in particular a mean
exactly equal to the threshold, or a check before the interval boundary)
the loop simply continues — and since a SLOW break leaves the read loop at
once, at most one such termination can fire per attempt. -/
theorem C6_slow_iff_full_window_below_threshold (cfg : Config) (start t : ℚ)
    (st : LoopState) (line : String)
    (hr : st.speed_reported = true) (hm : searchSpeed line.data = none)
    (hw : cfg.SPEED_WINDOW_SIZE ≠ 0) :
    ((∃ q, stepLine cfg start st t line = .broke (.slow q) [.terminate, .wait]) ↔
      (t - st.last_speed_check_time ≥ cfg.SPEED_CHECK_INTERVAL ∧
       st.speed_measurements.length = cfg.SPEED_WINDOW_SIZE ∧
       (st.speed_measurements.sum : ℚ) / (st.speed_measurements.length : ℚ) <
         (cfg.SPEED_THRESHOLD : ℚ))) ∧
    (¬ ((st.speed_measurements.sum : ℚ) / (st.speed_measurements.length : ℚ) <
         (cfg.SPEED_THRESHOLD : ℚ)) →
      ∃ st', stepLine cfg start st t line = .next st') := by
  have hcond : ¬ (t - start ≥ cfg.FETCH_TIMEOUT_BEFORE_SPEED_CHECK ∧
      st.speed_reported = false) := by
    rintro ⟨-, h2⟩
    rw [hr] at h2
    exact Bool.noConfusion h2
  have hex := extractStep_of_none cfg.SPEED_WINDOW_SIZE st hm
  unfold stepLine
  rw [if_neg hcond, hex]
  dsimp only
  by_cases h1 : t - st.last_speed_check_time ≥ cfg.SPEED_CHECK_INTERVAL
  · by_cases h2 : st.speed_measurements.length = cfg.SPEED_WINDOW_SIZE
    · rw [if_pos h1, if_pos h2, if_neg hw]
      by_cases h3 : (st.speed_measurements.sum : ℚ) /
          (st.speed_measurements.length : ℚ) < (cfg.SPEED_THRESHOLD : ℚ)
      · rw [if_pos h3]
        exact ⟨⟨fun _ => ⟨h1, h2, h3⟩, fun _ => ⟨_, rfl⟩⟩, fun hc => absurd h3 hc⟩
      · rw [if_neg h3]
        refine ⟨⟨?_, ?_⟩, fun _ => ⟨_, rfl⟩⟩
        · rintro ⟨q, hq⟩
          exact StepResult.noConfusion hq
        · rintro ⟨-, -, h3'⟩
          exact absurd h3' h3
    · rw [if_pos h1, if_neg h2]
      refine ⟨⟨?_, ?_⟩, fun _ => ⟨_, rfl⟩⟩
      · rintro ⟨q, hq⟩
        exact StepResult.noConfusion hq
      · rintro ⟨-, h2', -⟩
        exact absurd h2' h2
  · rw [if_neg h1]
    refine ⟨⟨?_, ?_⟩, fun _ => ⟨_, rfl⟩⟩
    · rintro ⟨q, hq⟩
      exact StepResult.noConfusion hq
    · rintro ⟨h1', -, -⟩
      exact absurd h1' h1

/-- C6 (witness): instantiated at a full window of five samples of
1 KiB/s, one second past the last check, on a speed-free line. -/
theorem C6_witness :
    ((∃ q, stepLine defaultConfig 0
        { speed_measurements := [1, 1, 1, 1, 1], speed_reported := true,
          last_speed_check_time := 0 } 2 "x" = .broke (.slow q) [.terminate, .wait]) ↔
      ((2 : ℚ) - 0 ≥ defaultConfig.SPEED_CHECK_INTERVAL ∧
       ([1, 1, 1, 1, 1] : List ℤ).length = defaultConfig.SPEED_WINDOW_SIZE ∧
       (([1, 1, 1, 1, 1] : List ℤ).sum : ℚ) / (([1, 1, 1, 1, 1] : List ℤ).length : ℚ) <
         (defaultConfig.SPEED_THRESHOLD : ℚ))) ∧
    (¬ ((([1, 1, 1, 1, 1] : List ℤ).sum : ℚ) / (([1, 1, 1, 1, 1] : List ℤ).length : ℚ) <
         (defaultConfig.SPEED_THRESHOLD : ℚ)) →
      ∃ st', stepLine defaultConfig 0
        { speed_measurements := [1, 1, 1, 1, 1], speed_reported := true,
          last_speed_check_time := 0 } 2 "x" = .next st') :=
  C6_slow_iff_full_window_below_threshold defaultConfig 0 2
    { speed_measurements := [1, 1, 1, 1, 1], speed_reported := true,
      last_speed_check_time := 0 } "x" rfl (by decide) (by decide)

/-- C7: an attempt whose stream ends naturally with exit code 0, reached
after `j` recoverable attempts still inside the retry budget, makes
`run_git_command` return 0 immediately: exactly `j + 1` children were
spawned and the fallback never runs. -/
theorem C7_zero_exit_short_circuit (cfg : Config) (env : RunEnv) (j : ℕ)
    (b : AttemptBehavior)
    (h1 : j < cfg.MAX_RETRIES.toNat)
    (h2 : ∀ i, i < j → recoverableSpawn cfg (env.attempts i))
    (h3 : env.attempts j = SpawnBehavior.spawned b)
    (h4 : (runAttempt cfg b).1 = AttemptEnd.exited 0) :
    (run_git_command cfg env).result = Except.ok 0 ∧
    (run_git_command cfg env).monitoredSpawns = j + 1 ∧
    (run_git_command cfg env).fallbackRun = false :=
  runRetryLoop_success cfg env j cfg.MAX_RETRIES.toNat 0 b h1
    (fun i hi => by rw [Nat.zero_add]; exact h2 i hi)
    (by rw [Nat.zero_add]; exact h3) h4

/-- C7 (witness): the very first attempt exits 0; the run returns 0 after
a single spawn and no fallback. -/
theorem C7_witness :
    (run_git_command defaultConfig
      { attempts := fun _ => SpawnBehavior.spawned ⟨0, [], StreamTail.eof 0⟩,
        fallbackCall := some 9 }).result = Except.ok 0 ∧
    (run_git_command defaultConfig
      { attempts := fun _ => SpawnBehavior.spawned ⟨0, [], StreamTail.eof 0⟩,
        fallbackCall := some 9 }).monitoredSpawns = 0 + 1 ∧
    (run_git_command defaultConfig
      { attempts := fun _ => SpawnBehavior.spawned ⟨0, [], StreamTail.eof 0⟩,
        fallbackCall := some 9 }).fallbackRun = false :=
  C7_zero_exit_short_circuit defaultConfig
    { attempts := fun _ => SpawnBehavior.spawned ⟨0, [], StreamTail.eof 0⟩,
      fallbackCall := some 9 } 0 ⟨0, [], StreamTail.eof 0⟩
    (by decide) (fun i hi => absurd hi (Nat.not_lt_zero i)) rfl (by decide)

/-- C8 (counterexample): an argument vector that already contains the
progress flag twice is dispatched unchanged, so the dispatched command
contains two instances of `--progress`, not exactly one. -/
theorem C8_duplicate_progress_preserved :
    dispatchArgs ["fetch", "--progress", "--progress"] =
      ["fetch", "--progress", "--progress"] ∧
    (dispatchArgs ["fetch", "--progress", "--progress"]).count "--progress" = 2 ∧
    (2 : ℕ) ≠ 1 :=
  ⟨by decide, by decide, by decide⟩

/-- C8 (amended): for every argument vector containing the token "fetch",
the flag is appended at the end exactly when absent and the vector is left
unchanged when present — so the flag is never duplicated by the tool, and
whenever the input contains at most one occurrence the dispatched command
contains exactly one. -/
theorem C8_progress_flag_dispatch (git_args : List String)
    (hf : "fetch" ∈ git_args) :
    (("--progress" ∈ git_args → dispatchArgs git_args = git_args) ∧
     ("--progress" ∉ git_args → dispatchArgs git_args = git_args ++ ["--progress"])) ∧
    (git_args.count "--progress" ≤ 1 →
      (dispatchArgs git_args).count "--progress" = 1) := by
  unfold dispatchArgs
  rw [if_pos hf]
  by_cases hp : "--progress" ∈ git_args
  · rw [if_pos hp]
    refine ⟨⟨fun _ => rfl, fun hn => absurd hp hn⟩, fun hle => ?_⟩
    have h1 : 0 < git_args.count "--progress" := List.count_pos_iff.mpr hp
    omega
  · rw [if_neg hp]
    refine ⟨⟨fun hpp => absurd hpp hp, fun _ => rfl⟩, fun _ => ?_⟩
    rw [List.count_append, List.count_eq_zero.mpr hp]
    simp

/-- C8 (witness): instantiated at `["fetch"]`, where the flag is absent
and gets appended exactly once. -/
theorem C8_witness :
    (("--progress" ∈ ["fetch"] → dispatchArgs ["fetch"] = ["fetch"]) ∧
     ("--progress" ∉ ["fetch"] → dispatchArgs ["fetch"] = ["fetch"] ++ ["--progress"])) ∧
    ((["fetch"] : List String).count "--progress" ≤ 1 →
      (dispatchArgs ["fetch"]).count "--progress" = 1) :=
  C8_progress_flag_dispatch ["fetch"] (by decide)

/-- C9: within an attempt the `speed_reported` flag is monotone — the loop
body never resets it — and from any state that has already recorded a
sample the rest of the streaming loop can never end STALLED: the
no-speed-reported termination branch is unreachable. -/
theorem C9_speed_reported_monotone (cfg : Config) (start t : ℚ)
    (st : LoopState) (line : String) (evs : List (ℚ × String)) (tail : StreamTail)
    (hr : st.speed_reported = true) :
    (∀ st', stepLine cfg start st t line = .next st' → st'.speed_reported = true) ∧
    (runLoopFrom cfg start st evs tail).1 ≠ AttemptEnd.stalled := by
  constructor
  · intro st' h
    obtain ⟨st1, hex, hor⟩ := stepLine_next_inv h
    have h1 := extractStep_reported hex hr
    rcases hor with rfl | rfl
    · exact h1
    · exact h1
  · exact runLoopFrom_reported_ne_stalled cfg start evs tail st hr

/-- C9 (witness): instantiated at a state that has recorded one sample. -/
theorem C9_witness :
    (∀ st', stepLine defaultConfig 0
        { speed_measurements := [100], speed_reported := true,
          last_speed_check_time := 0 } 0 "x" = .next st' →
      st'.speed_reported = true) ∧
    (runLoopFrom defaultConfig 0
        { speed_measurements := [100], speed_reported := true,
          last_speed_check_time := 0 } [] (StreamTail.eof 0)).1 ≠
      AttemptEnd.stalled :=
  C9_speed_reported_monotone defaultConfig 0 0
    { speed_measurements := [100], speed_reported := true, last_speed_check_time := 0 }
    "x" [] (StreamTail.eof 0) rfl

/-- C10: with `MAX_RETRIES ≤ 0` the retry loop body never executes: no
monitored child is ever spawned, the fallback runs exactly once, and its
exit code is returned. -/
theorem C10_nonpositive_max_retries (cfg : Config) (env : RunEnv) (c : ℤ)
    (h1 : cfg.MAX_RETRIES ≤ 0) (h2 : env.fallbackCall = some c) :
    (run_git_command cfg env).result = Except.ok c ∧
    (run_git_command cfg env).monitoredSpawns = 0 ∧
    (run_git_command cfg env).fallbackRun = true := by
  have hz : cfg.MAX_RETRIES.toNat = 0 := Int.toNat_of_nonpos h1
  unfold run_git_command
  rw [hz]
  refine ⟨?_, rfl, rfl⟩
  show (runFallback env.fallbackCall).result = Except.ok c
  rw [h2]
  rfl

/-- C10 (witness): a configuration with `MAX_RETRIES = 0` goes straight to
the fallback — even when every `Popen` would fail, none is attempted. -/
theorem C10_witness :
    (run_git_command { defaultConfig with MAX_RETRIES := 0 }
      { attempts := fun _ => SpawnBehavior.spawnFail, fallbackCall := some 3 }).result =
        Except.ok 3 ∧
    (run_git_command { defaultConfig with MAX_RETRIES := 0 }
      { attempts := fun _ => SpawnBehavior.spawnFail,
        fallbackCall := some 3 }).monitoredSpawns = 0 ∧
    (run_git_command { defaultConfig with MAX_RETRIES := 0 }
      { attempts := fun _ => SpawnBehavior.spawnFail,
        fallbackCall := some 3 }).fallbackRun = true :=
  C10_nonpositive_max_retries { defaultConfig with MAX_RETRIES := 0 }
    { attempts := fun _ => SpawnBehavior.spawnFail, fallbackCall := some 3 } 3
    (by decide) rfl

end GitFetch
